import Mathlib

/-!
Verification development for `apply.py`: a one-shot submission client that
resolves configuration from environment variables, builds a canonical JSON
payload, signs it with HMAC-SHA256, POSTs it, and validates the JSON response.

The Python program is shallowly embedded below.  Machine-level details are
modelled as follows: byte strings are `List Nat` with values `< 256`,
environments are association lists, the single HTTP exchange is a
`RequestResult` value, and process termination (exit code / stdout / stderr,
or an uncaught exception) is an `Outcome` value.
-/

/-! ## Python string primitives -/

/-- The set of characters stripped by Python `str.strip()` with no argument
(the characters for which `str.isspace()` holds). -/
def pyIsSpace (c : Char) : Bool :=
  (0x09 ≤ c.val && c.val ≤ 0x0D) || (0x1C ≤ c.val && c.val ≤ 0x1F) ||
  c.val = 0x20 || c.val = 0x85 || c.val = 0xA0 || c.val = 0x1680 ||
  (0x2000 ≤ c.val && c.val ≤ 0x200A) || c.val = 0x2028 || c.val = 0x2029 ||
  c.val = 0x202F || c.val = 0x205F || c.val = 0x3000

/-- Python `str.strip()`: drop leading and trailing whitespace characters. -/
def pyStrip (s : String) : String :=
  ⟨(s.data.dropWhile pyIsSpace).reverse.dropWhile pyIsSpace |>.reverse⟩

/-- Python `str.rstrip("/")`: drop trailing `'/'` characters. -/
def pyRstripSlash (s : String) : String :=
  ⟨(s.data.reverse.dropWhile (fun c => c = '/')).reverse⟩

/-- Does `small` occur at the start of `big`? (model of Python `startswith`,
used to define substring containment below). -/
def startsWithL : List Char → List Char → Bool
  | [], _ => true
  | _ :: _, [] => false
  | a :: as, b :: bs => a = b && startsWithL as bs

/-- Does `needle` occur as a contiguous substring of `hay`?
(Python `needle in hay` on strings.) -/
def containsL (needle : List Char) : List Char → Bool
  | [] => needle.isEmpty
  | c :: cs => startsWithL needle (c :: cs) || containsL needle cs

/-- Python `needle in hay` for strings. -/
def strContains (hay needle : String) : Bool :=
  containsL needle.data hay.data

/-- Code-point lexicographic strict order on strings, the order Python uses
to compare `str` values (and hence the order of `sort_keys=True`). -/
def charListLt : List Char → List Char → Bool
  | [], [] => false
  | [], _ :: _ => true
  | _ :: _, [] => false
  | a :: as, b :: bs =>
    if a.val < b.val then true
    else if b.val < a.val then false
    else charListLt as bs

/-- Code-point lexicographic strict order on strings. -/
def strLt (a b : String) : Bool :=
  charListLt a.data b.data

/-! ## Environment model -/

/-- A process environment: an association list from variable names to values. -/
def Env : Type := List (String × String)

/-- Python `os.getenv(name, default)`. -/
def getenvD (env : Env) (name dflt : String) : String :=
  match List.lookup name env with
  | some v => v
  | none => dflt

/-! ## Process outcomes -/

/-- Result of running the process (or a phase of it):
either a clean `sys.exit` with accumulated stdout/stderr text,
or an uncaught Python exception (which also terminates the process,
but printing a traceback rather than a controlled message). -/
inductive Outcome : Type where
  | exit (code : Nat) (out err : String)
  | crash (err : String)
deriving DecidableEq

/-! ## Configuration resolution (`required_env`, `github_repo_link`,
`github_action_run_link`, lines 19-54 of `apply.py`) -/

/-- `required_env(name)`: read the variable, strip whitespace; if the result
is empty, print a message naming the variable to stderr and exit 2. -/
def required_env (env : Env) (name : String) : Except (Nat × String) String :=
  let val := pyStrip (getenvD env name "")
  if val = "" then
    .error (2, "Missing required environment variable: " ++ name ++ "\n")
  else
    .ok val

/-- `github_repo_link()`: derive the repository link from
`GITHUB_SERVER_URL`/`GITHUB_REPOSITORY`, else require `REPOSITORY_LINK`. -/
def github_repo_link (env : Env) : Except (Nat × String) String :=
  let server := pyRstripSlash (getenvD env "GITHUB_SERVER_URL" "https://github.com")
  let repo := pyStrip (getenvD env "GITHUB_REPOSITORY" "")
  if repo ≠ "" then .ok (server ++ "/" ++ repo)
  else required_env env "REPOSITORY_LINK"

/-- `github_action_run_link()`: derive the action-run link from
`GITHUB_SERVER_URL`/`GITHUB_REPOSITORY`/`GITHUB_RUN_ID`, else require
`ACTION_RUN_LINK`. -/
def github_action_run_link (env : Env) : Except (Nat × String) String :=
  let server := pyRstripSlash (getenvD env "GITHUB_SERVER_URL" "https://github.com")
  let repo := pyStrip (getenvD env "GITHUB_REPOSITORY" "")
  let run_id := pyStrip (getenvD env "GITHUB_RUN_ID" "")
  if repo ≠ "" && run_id ≠ "" then .ok (server ++ "/" ++ repo ++ "/actions/runs/" ++ run_id)
  else required_env env "ACTION_RUN_LINK"

/-- The resolved payload configuration (lines 47-54 of `main`). -/
structure Config : Type where
  name : String
  email : String
  resume_link : String
  repository_link : String
  action_run_link : String
deriving DecidableEq

/-- `repository_link = os.getenv("B12_REPOSITORY_LINK", "").strip() or github_repo_link()`:
Python `or` keeps the left operand when it is a non-empty (truthy) string. -/
def resolveRepositoryLink (env : Env) : Except (Nat × String) String :=
  let override := pyStrip (getenvD env "B12_REPOSITORY_LINK" "")
  if override ≠ "" then .ok override else github_repo_link env

/-- `action_run_link = os.getenv("B12_ACTION_RUN_LINK", "").strip() or github_action_run_link()`. -/
def resolveActionRunLink (env : Env) : Except (Nat × String) String :=
  let override := pyStrip (getenvD env "B12_ACTION_RUN_LINK" "")
  if override ≠ "" then .ok override else github_action_run_link env

/-- Lines 47-54 of `main`: resolve the full configuration, in program order
(`B12_EMAIL` first, then `repository_link`, then `action_run_link`). -/
def resolveConfig (env : Env) : Except (Nat × String) Config := do
  let email ← required_env env "B12_EMAIL"
  let repository_link ← resolveRepositoryLink env
  let action_run_link ← resolveActionRunLink env
  return ⟨"Luciano Almenares", email,
          "https://www.linkedin.com/in/luciano-almenares/",
          repository_link, action_run_link⟩

example : resolveConfig [("B12_EMAIL", " a@b.c "), ("GITHUB_REPOSITORY", "o/r"), ("GITHUB_RUN_ID", "9")] =
    .ok ⟨"Luciano Almenares", "a@b.c",
         "https://www.linkedin.com/in/luciano-almenares/",
         "https://github.com/o/r",
         "https://github.com/o/r/actions/runs/9"⟩ := rfl

example : resolveConfig [] = .error (2, "Missing required environment variable: B12_EMAIL\n") := rfl

/-! ## Canonical JSON serialization
(`json.dumps(payload, separators=(",", ":"), sort_keys=True, ensure_ascii=False)`,
lines 56-66 of `apply.py`) -/

/-- Lowercase hexadecimal digit character for `n < 16`. -/
def hexDigitCh (n : Nat) : Char :=
  if n < 10 then Char.ofNat (48 + n) else Char.ofNat (87 + n)

/-- How the Python `json` encoder renders one character inside a string
literal when `ensure_ascii=False`: escape the quote, the backslash and
control characters below U+0020 (named escapes for BS/TAB/LF/FF/CR, a
lowercase `\u00xx` escape otherwise); every other character, including all
non-ASCII characters, is emitted literally. -/
def jsonEscapeChar (c : Char) : List Char :=
  if c.val.toNat = 0x22 then ['\\', '"']
  else if c.val.toNat = 0x5C then ['\\', '\\']
  else if c.val.toNat = 0x08 then ['\\', 'b']
  else if c.val.toNat = 0x09 then ['\\', 't']
  else if c.val.toNat = 0x0A then ['\\', 'n']
  else if c.val.toNat = 0x0C then ['\\', 'f']
  else if c.val.toNat = 0x0D then ['\\', 'r']
  else if c.val.toNat < 0x20 then
    ['\\', 'u', '0', '0', hexDigitCh (c.val.toNat / 16), hexDigitCh (c.val.toNat % 16)]
  else [c]

/-- A JSON string literal for `s` (double quotes, characters escaped as the
Python `json` encoder does with `ensure_ascii=False`). -/
def jsonQuote (s : String) : String :=
  ⟨'"' :: (s.data.flatMap jsonEscapeChar) ++ ['"']⟩

/-- Stable insertion of a pair into a key-sorted list (helper for
`sort_keys=True`, which orders the items by code-point order on the keys). -/
def insertByKey (p : String × String) : List (String × String) → List (String × String)
  | [] => [p]
  | q :: qs => if strLt p.1 q.1 then p :: q :: qs else q :: insertByKey p qs

/-- Sort the dict items by key (`sort_keys=True`). -/
def sortByKey : List (String × String) → List (String × String)
  | [] => []
  | p :: ps => insertByKey p (sortByKey ps)

/-- `",".join(...)` -/
def joinComma : List String → String
  | [] => ""
  | [x] => x
  | x :: y :: rest => x ++ "," ++ joinComma (y :: rest)

/-- `json.dumps` of a flat object whose values are all strings, with
`separators=(",", ":")`, `sort_keys=True`, `ensure_ascii=False`: key-sorted
items joined by `","`, each item `<quoted key>:<quoted value>`, wrapped in
braces, with no whitespace anywhere outside the quoted strings. -/
def json_dumps_sorted (kvs : List (String × String)) : String :=
  "\x7b" ++ joinComma ((sortByKey kvs).map fun kv => jsonQuote kv.1 ++ ":" ++ jsonQuote kv.2) ++ "\x7d"

/-- The payload dict literal of lines 56-63, in source (insertion) order. -/
def payloadPairs (cfg : Config) (ts : String) : List (String × String) :=
  [("timestamp", ts),
   ("name", cfg.name),
   ("email", cfg.email),
   ("resume_link", cfg.resume_link),
   ("repository_link", cfg.repository_link),
   ("action_run_link", cfg.action_run_link)]

/-- `body_str` of line 65. -/
def body_str (cfg : Config) (ts : String) : String :=
  json_dumps_sorted (payloadPairs cfg ts)

/-- UTF-8 encoding of one character (RFC 3629), as a list of byte values. -/
def utf8EncodeChar (c : Char) : List Nat :=
  let n := c.val.toNat
  if n < 0x80 then [n]
  else if n < 0x800 then [0xC0 + n / 64, 0x80 + n % 64]
  else if n < 0x10000 then [0xE0 + n / 4096, 0x80 + n / 64 % 64, 0x80 + n % 64]
  else [0xF0 + n / 262144, 0x80 + n / 4096 % 64, 0x80 + n / 64 % 64, 0x80 + n % 64]

/-- Python `str.encode("utf-8")`: the UTF-8 byte string of `s`. -/
def strBytes (s : String) : List Nat :=
  s.data.flatMap utf8EncodeChar

/-- `body_bytes` of line 66. -/
def body_bytes (cfg : Config) (ts : String) : List Nat :=
  strBytes (body_str cfg ts)

/-- The six payload keys in the order they appear in the serialized object. -/
def serializedPayloadKeys (cfg : Config) (ts : String) : List String :=
  (sortByKey (payloadPairs cfg ts)).map Prod.fst

/-- Is the list of strings in strictly ascending code-point order? -/
def strictlyAscending : List String → Bool
  | [] => true
  | [_] => true
  | a :: b :: rest => strLt a b && strictlyAscending (b :: rest)

example : json_dumps_sorted [("b", "2"), ("a", "1")] = "\x7b\"a\":\"1\",\"b\":\"2\"\x7d" := rfl

example : jsonQuote "caf\u00e9 \"x\"\n" = "\"caf\u00e9 \\\"x\\\"\\n\"" := rfl

/-- C1: for every configuration and timestamp string, the serialized payload
contains exactly the six fields `action_run_link`, `email`, `name`,
`repository_link`, `resume_link`, `timestamp`, with object keys in strict
ascending code-point lexicographic order, separators `","`/`":"` and no
inter-token whitespace; the byte string sent is the UTF-8 encoding of that
text, and non-ASCII characters are emitted literally (never escaped). -/
theorem C1_canonical_serialization (cfg : Config) (ts : String) :
    body_str cfg ts =
        "\x7b\"action_run_link\":" ++ jsonQuote cfg.action_run_link ++
        ",\"email\":" ++ jsonQuote cfg.email ++
        ",\"name\":" ++ jsonQuote cfg.name ++
        ",\"repository_link\":" ++ jsonQuote cfg.repository_link ++
        ",\"resume_link\":" ++ jsonQuote cfg.resume_link ++
        ",\"timestamp\":" ++ jsonQuote ts ++ "\x7d"
      ∧ serializedPayloadKeys cfg ts =
        ["action_run_link", "email", "name", "repository_link", "resume_link", "timestamp"]
      ∧ strictlyAscending
        ["action_run_link", "email", "name", "repository_link", "resume_link", "timestamp"] = true
      ∧ (∀ c : Char, 0x80 ≤ c.val.toNat → jsonEscapeChar c = [c])
      ∧ body_bytes cfg ts = strBytes (body_str cfg ts) := by
  refine ⟨?_, rfl, rfl, ?_, rfl⟩
  · have hsort : sortByKey (payloadPairs cfg ts) =
        [("action_run_link", cfg.action_run_link), ("email", cfg.email), ("name", cfg.name),
         ("repository_link", cfg.repository_link), ("resume_link", cfg.resume_link),
         ("timestamp", ts)] := rfl
    have e1 : ("\x7b\"action_run_link\":" : String) = "\x7b" ++ (jsonQuote "action_run_link" ++ ":") := rfl
    have e2 : (",\"email\":" : String) = "," ++ (jsonQuote "email" ++ ":") := rfl
    have e3 : (",\"name\":" : String) = "," ++ (jsonQuote "name" ++ ":") := rfl
    have e4 : (",\"repository_link\":" : String) = "," ++ (jsonQuote "repository_link" ++ ":") := rfl
    have e5 : (",\"resume_link\":" : String) = "," ++ (jsonQuote "resume_link" ++ ":") := rfl
    have e6 : (",\"timestamp\":" : String) = "," ++ (jsonQuote "timestamp" ++ ":") := rfl
    rw [body_str, json_dumps_sorted, hsort, e1, e2, e3, e4, e5, e6]
    simp only [List.map, joinComma, String.append_assoc]
  · intro c hc
    unfold jsonEscapeChar
    repeat rw [if_neg (by omega)]

/-- C1 witness: a concrete instantiation of the inner escape hypothesis at a
non-ASCII character (U+00E9). -/
theorem C1_canonical_serialization_witness :
    0x80 ≤ ('é' : Char).val.toNat ∧ jsonEscapeChar 'é' = ['é'] :=
  ⟨by decide,
   (C1_canonical_serialization ⟨"n", "e", "r", "p", "a"⟩ "t").2.2.2.1 'é' (by decide)⟩

/-! ## HMAC-SHA256 (`hmac.new(SIGNING_SECRET.encode("utf-8"), body_bytes,
hashlib.sha256).hexdigest()`, lines 12 and 68-69 of `apply.py`).
SHA-256 is implemented from FIPS 180-4 on 32-bit words represented as
`Nat` values reduced `% 2 ^ 32`; HMAC from RFC 2104 with block size 64. -/

/-- The SHA-256 round constants. -/
def K256 : List Nat :=
  [1116352408, 1899447441, 3049323471, 3921009573, 961987163,
   1508970993, 2453635748, 2870763221, 3624381080, 310598401,
   607225278, 1426881987, 1925078388, 2162078206, 2614888103,
   3248222580, 3835390401, 4022224774, 264347078, 604807628,
   770255983, 1249150122, 1555081692, 1996064986, 2554220882,
   2821834349, 2952996808, 3210313671, 3336571891, 3584528711,
   113926993, 338241895, 666307205, 773529912, 1294757372,
   1396182291, 1695183700, 1986661051, 2177026350, 2456956037,
   2730485921, 2820302411, 3259730800, 3345764771, 3516065817,
   3600352804, 4094571909, 275423344, 430227734, 506948616,
   659060556, 883997877, 958139571, 1322822218, 1537002063,
   1747873779, 1955562222, 2024104815, 2227730452, 2361852424,
   2428436474, 2756734187, 3204031479, 3329325298]

/-- The SHA-256 initial hash value. -/
def H256 : List Nat :=
  [1779033703, 3144134277, 1013904242, 2773480762,
   1359893119, 2600822924, 528734635, 1541459225]

/-- Right rotation of a 32-bit word. -/
def rotr32 (n x : Nat) : Nat := (x / 2 ^ n + x % 2 ^ n * 2 ^ (32 - n)) % 2 ^ 32

/-- FIPS 180-4 `Σ0`. -/
def bigSigma0 (x : Nat) : Nat := Nat.xor (rotr32 2 x) (Nat.xor (rotr32 13 x) (rotr32 22 x))

/-- FIPS 180-4 `Σ1`. -/
def bigSigma1 (x : Nat) : Nat := Nat.xor (rotr32 6 x) (Nat.xor (rotr32 11 x) (rotr32 25 x))

/-- FIPS 180-4 `σ0`. -/
def smallSigma0 (x : Nat) : Nat := Nat.xor (rotr32 7 x) (Nat.xor (rotr32 18 x) (x / 2 ^ 3))

/-- FIPS 180-4 `σ1`. -/
def smallSigma1 (x : Nat) : Nat := Nat.xor (rotr32 17 x) (Nat.xor (rotr32 19 x) (x / 2 ^ 10))

/-- FIPS 180-4 `Ch`. -/
def chFn (x y z : Nat) : Nat := Nat.xor (Nat.land x y) (Nat.land (Nat.xor x 0xFFFFFFFF) z)

/-- FIPS 180-4 `Maj`. -/
def majFn (x y z : Nat) : Nat := Nat.xor (Nat.land x y) (Nat.xor (Nat.land x z) (Nat.land y z))

/-- Big-endian 8-byte encoding of a length in bits. -/
def be64 (n : Nat) : List Nat :=
  [n / 2 ^ 56 % 256, n / 2 ^ 48 % 256, n / 2 ^ 40 % 256, n / 2 ^ 32 % 256,
   n / 2 ^ 24 % 256, n / 2 ^ 16 % 256, n / 2 ^ 8 % 256, n % 256]

/-- SHA-256 message padding: `0x80`, zeros to 56 mod 64, 8-byte bit length. -/
def sha256Pad (msg : List Nat) : List Nat :=
  let z := (120 - (msg.length + 1) % 64) % 64
  msg ++ 0x80 :: (List.replicate z 0 ++ be64 (msg.length * 8))

/-- Group bytes into big-endian 32-bit words. -/
def bytesToWords : List Nat → List Nat
  | b0 :: b1 :: b2 :: b3 :: rest => (b0 * 2 ^ 24 + b1 * 2 ^ 16 + b2 * 2 ^ 8 + b3) :: bytesToWords rest
  | _ => []

/-- Split a byte string into 64-byte blocks (structural recursion on a fuel
bound so that the definition computes by reduction; the fuel
`l.length + 1` always suffices since every step consumes 64 bytes). -/
def chunksAux : Nat → List Nat → List (List Nat)
  | 0, _ => []
  | _ + 1, [] => []
  | n + 1, b :: rest => (b :: rest).take 64 :: chunksAux n ((b :: rest).drop 64)

/-- Split a byte string into 64-byte blocks. -/
def chunks64 (l : List Nat) : List (List Nat) :=
  chunksAux (l.length + 1) l

/-- Extend the message schedule; `acc` holds the words produced so far in
reverse order, so `acc.getD 1 0` is `W[i-2]`, `acc.getD 6 0` is `W[i-7]`,
`acc.getD 14 0` is `W[i-15]` and `acc.getD 15 0` is `W[i-16]`. -/
def extendSched : Nat → List Nat → List Nat
  | 0, acc => acc.reverse
  | n + 1, acc =>
      extendSched n
        (((smallSigma1 (acc.getD 1 0) + acc.getD 6 0 +
           smallSigma0 (acc.getD 14 0) + acc.getD 15 0) % 2 ^ 32) :: acc)

/-- The 64-word message schedule of one block. -/
def msgSchedule (block : List Nat) : List Nat := extendSched 48 block.reverse

/-- The SHA-256 working state `(a, b, c, d, e, f, g, h)`. -/
abbrev Sha256State := Nat × Nat × Nat × Nat × Nat × Nat × Nat × Nat

/-- One round of the SHA-256 compression function. -/
def compressStep (st : Sha256State) (kw : Nat × Nat) : Sha256State :=
  let t1 := (st.2.2.2.2.2.2.2 + bigSigma1 st.2.2.2.2.1 +
             chFn st.2.2.2.2.1 st.2.2.2.2.2.1 st.2.2.2.2.2.2.1 + kw.1 + kw.2) % 2 ^ 32
  let t2 := (bigSigma0 st.1 + majFn st.1 st.2.1 st.2.2.1) % 2 ^ 32
  ((t1 + t2) % 2 ^ 32, st.1, st.2.1, st.2.2.1, (st.2.2.2.1 + t1) % 2 ^ 32,
   st.2.2.2.2.1, st.2.2.2.2.2.1, st.2.2.2.2.2.2.1)

/-- Process one 16-word block: 64 rounds, then add into the hash state. -/
def compressBlock (hs : List Nat) (block : List Nat) : List Nat :=
  let w := msgSchedule block
  let t := (K256.zip w).foldl compressStep
    (hs.getD 0 0, hs.getD 1 0, hs.getD 2 0, hs.getD 3 0,
     hs.getD 4 0, hs.getD 5 0, hs.getD 6 0, hs.getD 7 0)
  [(hs.getD 0 0 + t.1) % 2 ^ 32, (hs.getD 1 0 + t.2.1) % 2 ^ 32,
   (hs.getD 2 0 + t.2.2.1) % 2 ^ 32, (hs.getD 3 0 + t.2.2.2.1) % 2 ^ 32,
   (hs.getD 4 0 + t.2.2.2.2.1) % 2 ^ 32, (hs.getD 5 0 + t.2.2.2.2.2.1) % 2 ^ 32,
   (hs.getD 6 0 + t.2.2.2.2.2.2.1) % 2 ^ 32, (hs.getD 7 0 + t.2.2.2.2.2.2.2) % 2 ^ 32]

/-- SHA-256 of a byte string, as its 32-byte digest. -/
def sha256 (msg : List Nat) : List Nat :=
  let hs := ((chunks64 (sha256Pad msg)).map bytesToWords).foldl compressBlock H256
  hs.flatMap (fun w => [w / 2 ^ 24 % 256, w / 2 ^ 16 % 256, w / 2 ^ 8 % 256, w % 256])

/-- HMAC-SHA256 (RFC 2104): pad or hash the key to the 64-byte block size,
then `H((K0 xor opad) || H((K0 xor ipad) || msg))`. -/
def hmacSha256 (key msg : List Nat) : List Nat :=
  let k0 := if 64 < key.length
            then sha256 key ++ List.replicate 32 0
            else key ++ List.replicate (64 - key.length) 0
  sha256 ((k0.map (fun b => Nat.xor b 0x5C)) ++ sha256 ((k0.map (fun b => Nat.xor b 0x36)) ++ msg))

/-- Lowercase hex encoding of a byte string (`bytes.hex()` /
`hashlib .hexdigest()`). -/
def bytesToHex (bs : List Nat) : String :=
  ⟨bs.flatMap (fun b => [hexDigitCh (b / 16), hexDigitCh (b % 16)])⟩

/-- The fixed shared secret of line 12. -/
def SIGNING_SECRET : String := "hello-there-from-b12"

/-- `digest` of line 68: the HMAC-SHA256 hex digest of the given bytes under
the fixed shared secret. -/
def hmacDigestHex (msg : List Nat) : String :=
  bytesToHex (hmacSha256 (strBytes SIGNING_SECRET) msg)

/-- `signature` of line 69. -/
def signature (msg : List Nat) : String :=
  "sha256=" ++ hmacDigestHex msg

set_option maxRecDepth 100000 in
example : bytesToHex (sha256 []) =
    "e3b0c44298fc1c149afbf4c8996fb92427ae41e4649b934ca495991b7852b855" := rfl

set_option maxRecDepth 100000 in
example : bytesToHex (hmacSha256 (strBytes "key") (strBytes "The quick brown fox jumps over the lazy dog")) =
    "f7bc83f430538424b13298e6aa6fb143ef4d59a14946175997479dbc2d1a3cd8" := rfl

/-- Every byte of a SHA-256 digest is below 256 (each is produced by a
`% 256` extraction). -/
theorem sha256_mem_lt (m : List Nat) : ∀ b ∈ sha256 m, b < 256 := by
  intro b hb
  simp only [sha256, List.mem_flatMap, List.mem_cons, List.not_mem_nil, or_false] at hb
  obtain ⟨w, _, hw⟩ := hb
  rcases hw with h | h | h | h <;> subst h <;> exact Nat.mod_lt _ (by norm_num)

/-- The sixteen possible hex digit characters are all lowercase hex. -/
theorem hexDigitCh_mem : ∀ n < 16, hexDigitCh n ∈ ("0123456789abcdef").data := by
  decide

/-- Every character of the hex encoding of a byte string is a lowercase hex
digit. -/
theorem bytesToHex_chars (bs : List Nat) (hbs : ∀ b ∈ bs, b < 256) :
    ∀ c ∈ (bytesToHex bs).data, c ∈ ("0123456789abcdef").data := by
  intro c hc
  simp only [bytesToHex, List.mem_flatMap, List.mem_cons, List.not_mem_nil, or_false] at hc
  obtain ⟨b, hb, h⟩ := hc
  have hlt := hbs b hb
  rcases h with h | h <;> subst h
  · exact hexDigitCh_mem _ (by omega)
  · exact hexDigitCh_mem _ (Nat.mod_lt _ (by norm_num))

/-- C2: the signature computation is deterministic (it is a pure function of
the message bytes: two computations over the same bytes with the fixed
shared secret agree), and the signature header value is the string
`sha256=` followed by the hex digest of the HMAC, every character of which
is a lowercase hexadecimal digit. -/
theorem C2_signature_deterministic (msg : List Nat) :
    hmacSha256 (strBytes SIGNING_SECRET) msg = hmacSha256 (strBytes SIGNING_SECRET) msg
      ∧ signature msg = "sha256=" ++ hmacDigestHex msg
      ∧ hmacDigestHex msg = bytesToHex (hmacSha256 (strBytes SIGNING_SECRET) msg)
      ∧ ∀ c ∈ (hmacDigestHex msg).data, c ∈ ("0123456789abcdef").data := by
  refine ⟨rfl, rfl, rfl, ?_⟩
  intro c hc
  exact bytesToHex_chars _ (sha256_mem_lt _) c hc

/-! ## Python JSON values (`json.loads`, Python truthiness, `print`)

`json.loads` produces `None` / `bool` / `int` / `float` / `str` / `list` /
`dict` values.  Numbers are represented exactly as `m * 10 ^ e` (Python
parses a fraction/exponent form to an IEEE double; the exact-decimal model
agrees with it on zero-ness and on every value the claims touch, though not
on extreme rounding corners such as `1e-400`).  `json.loads` also accepts
the non-finite extensions `NaN` / `Infinity` by default; those are outside
this model (the parser rejects them), and no claim involves them. -/

/-- A Python value produced by `json.loads`. -/
inductive PyJson : Type where
  | null : PyJson
  | bool (b : Bool) : PyJson
  | num (m : Int) (e : Int) (isFloat : Bool) : PyJson
  | str (s : String) : PyJson
  | arr (xs : List PyJson) : PyJson
  | obj (kvs : List (String × PyJson)) : PyJson

/-- Python `type(v).__name__` for a `json.loads` value. -/
def pyTypeName : PyJson → String
  | .null => "NoneType"
  | .bool _ => "bool"
  | .num _ _ false => "int"
  | .num _ _ true => "float"
  | .str _ => "str"
  | .arr _ => "list"
  | .obj _ => "dict"

/-- Python truthiness (`bool(v)`) of a `json.loads` value: `None`, `False`,
zero numbers, and empty strings/lists/dicts are falsy; all else truthy. -/
def pyTruthy : PyJson → Bool
  | .null => false
  | .bool b => b
  | .num m _ _ => !(m == 0)
  | .str s => !(s == "")
  | .arr xs => !xs.isEmpty
  | .obj kvs => !kvs.isEmpty

/-- Python `dict.get(k)` with default `None`, for the dict built by
`json.loads`: a duplicated key keeps the last value, hence the reversed
lookup. -/
def dictGet (kvs : List (String × PyJson)) (k : String) : PyJson :=
  match List.lookup k kvs.reverse with
  | some v => v
  | none => .null

/-- Decimal digit characters of a natural number, via a structural fuel
argument so that the function computes by reduction (`fuel > n` suffices). -/
def natDigitsAux : Nat → Nat → List Char
  | 0, _ => []
  | fuel + 1, n =>
    if n < 10 then [Char.ofNat (48 + n)]
    else natDigitsAux fuel (n / 10) ++ [Char.ofNat (48 + n % 10)]

/-- Decimal digit characters of a natural number (no leading zeros). -/
def natDigits (n : Nat) : List Char :=
  natDigitsAux (n + 1) n

/-- Python `str()` of a float with exact decimal value `m * 10 ^ e`, rendered
as a plain decimal with a mandatory fractional part (`100.0`, `1.5`, `0.0`).
Python switches to exponent notation for very large/small magnitudes and
prints shortest round-trip digits of the IEEE double; those corners are
outside this model. -/
def floatRepr (m e : Int) : String :=
  let sign := if m < 0 then "-" else ""
  let ds := natDigits m.natAbs
  if 0 ≤ e then
    sign ++ ⟨ds⟩ ++ ⟨List.replicate e.toNat (Char.ofNat 48)⟩ ++ ".0"
  else
    let k := (-e).toNat
    let padded := List.replicate (k + 1 - ds.length) (Char.ofNat 48) ++ ds
    let ip := padded.take (padded.length - k)
    let fp := padded.drop (padded.length - k)
    let fp2 := (fp.reverse.dropWhile (fun c => c = Char.ofNat 48)).reverse
    sign ++ ⟨ip⟩ ++ "." ++ (if fp2.isEmpty then "0" else ⟨fp2⟩)

/-- One character inside a Python `repr` string literal with quote
character `q`: escape the backslash, the quote and the common control
characters (`\xNN` escapes of other non-printables are outside the model). -/
def pyReprEscape (q c : Char) : List Char :=
  if c = '\\' then ['\\', '\\']
  else if c = q then ['\\', q]
  else if c.val.toNat = 0x0A then ['\\', 'n']
  else if c.val.toNat = 0x0D then ['\\', 'r']
  else if c.val.toNat = 0x09 then ['\\', 't']
  else [c]

/-- Python `repr` of a string: single-quoted, unless the string contains a
single quote and no double quote. -/
def pyReprStr (s : String) : String :=
  let q := if (Char.ofNat 39) ∈ s.data && !((Char.ofNat 34) ∈ s.data)
           then Char.ofNat 34 else Char.ofNat 39
  ⟨q :: s.data.flatMap (pyReprEscape q) ++ [q]⟩

mutual

/-- Python `repr` of a `json.loads` value. -/
def pyRepr : PyJson → String
  | .null => "None"
  | .bool true => "True"
  | .bool false => "False"
  | .num m _ false => toString m
  | .num m e true => floatRepr m e
  | .str s => pyReprStr s
  | .arr xs => "[" ++ pyReprList xs ++ "]"
  | .obj kvs => "\x7b" ++ pyReprMembers kvs ++ "\x7d"

/-- Comma-joined `repr`s of list elements. -/
def pyReprList : List PyJson → String
  | [] => ""
  | [x] => pyRepr x
  | x :: y :: rest => pyRepr x ++ ", " ++ pyReprList (y :: rest)

/-- Comma-joined `key: value` `repr`s of dict members. -/
def pyReprMembers : List (String × PyJson) → String
  | [] => ""
  | [(k, v)] => pyReprStr k ++ ": " ++ pyRepr v
  | (k, v) :: m :: rest => pyReprStr k ++ ": " ++ pyRepr v ++ ", " ++ pyReprMembers (m :: rest)

end

/-- Python `str()` of a `json.loads` value, as printed by `print(v)`:
a `str` prints as itself, anything else as its `repr`. -/
def pyStr (v : PyJson) : String :=
  match v with
  | .str s => s
  | _ => pyRepr v

/-! ## The JSON parser (`json.loads`, strict mode): recursive descent with a
structural fuel bound so that every function computes by reduction.  The
model covers the finite JSON grammar; Python additionally accepts
`NaN`/`Infinity`/`-Infinity` and preserves lone UTF-16 surrogates from
`\uXXXX` escapes, both outside this model (and outside every claim). -/

/-- A JSON whitespace character (space, tab, LF, CR). -/
def jsonWsChar (c : Char) : Bool :=
  c.val.toNat = 0x20 || c.val.toNat = 0x09 || c.val.toNat = 0x0A || c.val.toNat = 0x0D

/-- Skip JSON whitespace. -/
def skipWs (cs : List Char) : List Char := cs.dropWhile jsonWsChar

/-- Value of one hex digit of a `\uXXXX` escape. -/
def hexVal (c : Char) : Option Nat :=
  let n := c.val.toNat
  if 48 ≤ n && n ≤ 57 then some (n - 48)
  else if 97 ≤ n && n ≤ 102 then some (n - 87)
  else if 65 ≤ n && n ≤ 70 then some (n - 55)
  else none

/-- Parse the remainder of a JSON string literal (after the opening quote):
returns the decoded characters and the input after the closing quote.
Strict mode: raw control characters and unknown escapes are errors;
surrogate pairs written as two `\uXXXX` escapes are combined. -/
def parseJStr : Nat → List Char → Option (List Char × List Char)
  | 0, _ => none
  | _ + 1, [] => none
  | fuel + 1, c :: rest =>
    if c.val.toNat = 34 then some ([], rest)
    else if c.val.toNat = 92 then
      match rest with
      | [] => none
      | e :: rest2 =>
        if e.val.toNat = 34 then (parseJStr fuel rest2).map (fun p => ('"' :: p.1, p.2))
        else if e.val.toNat = 92 then (parseJStr fuel rest2).map (fun p => ('\\' :: p.1, p.2))
        else if e = '/' then (parseJStr fuel rest2).map (fun p => ('/' :: p.1, p.2))
        else if e = 'b' then (parseJStr fuel rest2).map (fun p => (Char.ofNat 8 :: p.1, p.2))
        else if e = 'f' then (parseJStr fuel rest2).map (fun p => (Char.ofNat 12 :: p.1, p.2))
        else if e = 'n' then (parseJStr fuel rest2).map (fun p => (Char.ofNat 10 :: p.1, p.2))
        else if e = 'r' then (parseJStr fuel rest2).map (fun p => (Char.ofNat 13 :: p.1, p.2))
        else if e = 't' then (parseJStr fuel rest2).map (fun p => (Char.ofNat 9 :: p.1, p.2))
        else if e = 'u' then
          match rest2 with
          | h1 :: h2 :: h3 :: h4 :: rest3 =>
            match hexVal h1, hexVal h2, hexVal h3, hexVal h4 with
            | some v1, some v2, some v3, some v4 =>
              let u := ((v1 * 16 + v2) * 16 + v3) * 16 + v4
              if 0xD800 ≤ u && u ≤ 0xDBFF then
                match rest3 with
                | b1 :: b2 :: k1 :: k2 :: k3 :: k4 :: rest4 =>
                  if b1.val.toNat = 92 && b2 = 'u' then
                    match hexVal k1, hexVal k2, hexVal k3, hexVal k4 with
                    | some w1, some w2, some w3, some w4 =>
                      let l := ((w1 * 16 + w2) * 16 + w3) * 16 + w4
                      if 0xDC00 ≤ l && l ≤ 0xDFFF then
                        (parseJStr fuel rest4).map
                          (fun p => (Char.ofNat (0x10000 + (u - 0xD800) * 0x400 + (l - 0xDC00)) :: p.1, p.2))
                      else none
                    | _, _, _, _ => none
                  else (parseJStr fuel rest3).map (fun p => (Char.ofNat u :: p.1, p.2))
                | _ => (parseJStr fuel rest3).map (fun p => (Char.ofNat u :: p.1, p.2))
              else (parseJStr fuel rest3).map (fun p => (Char.ofNat u :: p.1, p.2))
            | _, _, _, _ => none
          | _ => none
        else none
    else if c.val.toNat < 0x20 then none
    else (parseJStr fuel rest).map (fun p => (c :: p.1, p.2))

/-- Numeric value of a digit run. -/
def digitsToNat (ds : List Char) : Nat :=
  ds.foldl (fun a c => a * 10 + (c.val.toNat - 48)) 0

/-- Parse a JSON number: `-? (0 | [1-9][0-9]*) (\.[0-9]+)? ([eE][-+]?[0-9]+)?`,
as mantissa `m`, decimal exponent `e` and an `int`-vs-`float` flag. -/
def parseNumber (cs : List Char) : Option (PyJson × List Char) :=
  let signed := match cs with
    | c :: r => if c = '-' then (true, r) else (false, cs)
    | [] => (false, cs)
  match signed.2 with
  | [] => none
  | d :: rest =>
    if !d.isDigit then none
    else
      let ip := if d.val.toNat = 48 then ([d], rest)
                else (d :: rest.takeWhile Char.isDigit, rest.dropWhile Char.isDigit)
      let frac := match ip.2 with
        | p :: f1 :: fr =>
          if p = '.' && f1.isDigit
          then some (f1 :: fr.takeWhile Char.isDigit, fr.dropWhile Char.isDigit)
          else none
        | _ => none
      let afterFrac := match frac with | some fp => fp.2 | none => ip.2
      let expPart : Option (Int × List Char) := match afterFrac with
        | x :: xr =>
          if x = 'e' || x = 'E' then
            match xr with
            | s1 :: sr =>
              if s1 = '+' then
                match sr with
                | d1 :: dr => if d1.isDigit
                    then some ((digitsToNat (d1 :: dr.takeWhile Char.isDigit) : Int), dr.dropWhile Char.isDigit)
                    else none
                | [] => none
              else if s1 = '-' then
                match sr with
                | d1 :: dr => if d1.isDigit
                    then some (-(digitsToNat (d1 :: dr.takeWhile Char.isDigit) : Int), dr.dropWhile Char.isDigit)
                    else none
                | [] => none
              else if s1.isDigit then
                some ((digitsToNat (s1 :: sr.takeWhile Char.isDigit) : Int), sr.dropWhile Char.isDigit)
              else none
            | [] => none
          else none
        | [] => none
      let fracDigits := match frac with | some fp => fp.1 | none => []
      let mantissa : Int := (digitsToNat (ip.1 ++ fracDigits) : Int)
      let mantissa := if signed.1 then -mantissa else mantissa
      let expo : Int := (match expPart with | some ep => ep.1 | none => 0) - (fracDigits.length : Int)
      let rest2 := match expPart with | some ep => ep.2 | none => afterFrac
      let isFloat := frac.isSome || expPart.isSome
      some (.num mantissa expo isFloat, rest2)

mutual

/-- Parse one JSON value (input must start with a non-whitespace character). -/
def parseValue : Nat → List Char → Option (PyJson × List Char)
  | 0, _ => none
  | _ + 1, [] => none
  | fuel + 1, c :: rest =>
    if c.val.toNat = 34 then
      (parseJStr (rest.length + 1) rest).map (fun p => (.str ⟨p.1⟩, p.2))
    else if c = 't' then
      if startsWithL ['r', 'u', 'e'] rest then some (.bool true, rest.drop 3) else none
    else if c = 'f' then
      if startsWithL ['a', 'l', 's', 'e'] rest then some (.bool false, rest.drop 4) else none
    else if c = 'n' then
      if startsWithL ['u', 'l', 'l'] rest then some (.null, rest.drop 3) else none
    else if c.val.toNat = 123 then
      match skipWs rest with
      | d :: r1 => if d.val.toNat = 125 then some (.obj [], r1)
                   else (parseMembers fuel (d :: r1)).map (fun p => (.obj p.1, p.2))
      | [] => none
    else if c = '[' then
      match skipWs rest with
      | d :: r1 => if d = ']' then some (.arr [], r1)
                   else (parseItems fuel (d :: r1)).map (fun p => (.arr p.1, p.2))
      | [] => none
    else parseNumber (c :: rest)

/-- Parse the members of an object after its opening brace and any
whitespace, up to and including the closing brace. -/
def parseMembers : Nat → List Char → Option (List (String × PyJson) × List Char)
  | 0, _ => none
  | _ + 1, [] => none
  | fuel + 1, c :: rest =>
    if c.val.toNat = 34 then
      match parseJStr (rest.length + 1) rest with
      | none => none
      | some (k, r1) =>
        match skipWs r1 with
        | colon :: r3 =>
          if colon = ':' then
            match parseValue fuel (skipWs r3) with
            | none => none
            | some (v, r4) =>
              match skipWs r4 with
              | sep :: r6 =>
                if sep = ',' then
                  match skipWs r6 with
                  | d :: r7 => (parseMembers fuel (d :: r7)).map (fun p => ((⟨k⟩, v) :: p.1, p.2))
                  | [] => none
                else if sep.val.toNat = 125 then some ([(⟨k⟩, v)], r6)
                else none
              | [] => none
          else none
        | [] => none
    else none

/-- Parse the items of an array after its opening bracket and any
whitespace, up to and including the closing bracket. -/
def parseItems : Nat → List Char → Option (List PyJson × List Char)
  | 0, _ => none
  | _ + 1, [] => none
  | fuel + 1, c :: rest =>
    match parseValue fuel (c :: rest) with
    | none => none
    | some (v, r1) =>
      match skipWs r1 with
      | sep :: r2 =>
        if sep = ',' then
          match skipWs r2 with
          | d :: r3 => (parseItems fuel (d :: r3)).map (fun p => (v :: p.1, p.2))
          | [] => none
        else if sep = ']' then some ([v], r2)
        else none
      | [] => none

end

/-- `json.loads`: parse a complete JSON document with optional surrounding
whitespace; any trailing non-whitespace is an error. -/
def json_loads (s : String) : Option PyJson :=
  match parseValue (2 * s.data.length + 2) (skipWs s.data) with
  | some (v, rest) => if (skipWs rest).isEmpty then some v else none
  | none => none


example : json_loads "null" = some .null := rfl

example : json_loads " \x7b\"success\": false\x7d " = some (.obj [("success", .bool false)]) := rfl

example : json_loads "\x7b\"success\": true, \"receipt\": \"abc123\"\x7d" =
    some (.obj [("success", .bool true), ("receipt", .str "abc123")]) := rfl

example : json_loads "[1,]" = none := rfl

example : json_loads "not json" = none := rfl

/-! ## Submission and response handling (lines 71-106 of `apply.py`) -/

/-- The observable result of the single `urllib.request.urlopen` call:
a returned response, an `HTTPError` exception, or any other exception
(connection failure, timeout, ...). -/
inductive RequestResult : Type where
  | success (status : Nat) (body : String)
  | httpError (code : Nat) (body : String)
  | failure (msg : String)
deriving DecidableEq

/-- `urllib.request.urlopen` semantics for a server that answers with the
given status and body: statuses `>= 400` raise `HTTPError`, others return
the response.  (Redirect handling for 3xx responses is not modelled;
no claim involves a 3xx status.) -/
def urlopenResult (status : Nat) (body : String) : RequestResult :=
  if 400 ≤ status then .httpError status body else .success status body

/-- Lines 95-106: parse checking of the response body.  `data.get` exists
only on dicts: on any other parsed value Python raises `AttributeError`
(an uncaught exception, so the process dies with a traceback, not with the
controlled error message). -/
def validateData (d : PyJson) (raw : String) : Outcome :=
  match d with
  | .obj kvs =>
    let receipt := dictGet kvs "receipt"
    if !(pyTruthy (dictGet kvs "success")) || !(pyTruthy receipt) then
      .exit 1 "" ("Unexpected response: " ++ raw ++ "\n")
    else
      .exit 0 (pyStr receipt ++ "\n") ""
  | _ =>
    .crash ("AttributeError: \x27" ++ pyTypeName d ++ "\x27 object has no attribute \x27get\x27")

/-- Lines 81-106: handle the transport result, the `status != 200` check,
JSON parsing and response validation. -/
def responsePhase (r : RequestResult) : Outcome :=
  match r with
  | .httpError code body => .exit 1 "" ("HTTPError " ++ toString code ++ ": " ++ body ++ "\n")
  | .failure msg => .exit 1 "" ("Request failed: " ++ msg ++ "\n")
  | .success status body =>
    if status ≠ 200 then .exit 1 "" ("HTTP " ++ toString status ++ ": " ++ body ++ "\n")
    else
      match json_loads body with
      | none => .exit 1 "" ("Non-JSON response: " ++ body ++ "\n")
      | some d => validateData d body

/-- The whole of `main`, as a function of the environment and of the result
of the one network exchange: resolve configuration (exiting on a missing
variable), then handle the response. -/
def runMain (env : Env) (r : RequestResult) : Outcome :=
  match resolveConfig env with
  | .error e => .exit e.1 "" e.2
  | .ok _ => responsePhase r

example : responsePhase (urlopenResult 200 "\x7b\"success\": true, \"receipt\": \"abc123\"\x7d") =
    .exit 0 "abc123\n" "" := rfl

example : responsePhase (urlopenResult 500 "oops") = .exit 1 "" "HTTPError 500: oops\n" := rfl

example : responsePhase (urlopenResult 200 "null") =
    .crash "AttributeError: \x27NoneType\x27 object has no attribute \x27get\x27" := rfl

/-! ## Substring facts used by the error-message claims -/

/-- A needle matching at the start still matches after extending the list. -/
theorem startsWithL_extend (n h t : List Char) (hp : startsWithL n h = true) :
    startsWithL n (h ++ t) = true := by
  induction n generalizing h with
  | nil => simp [startsWithL]
  | cons a as ih =>
    cases h with
    | nil => simp [startsWithL] at hp
    | cons b bs =>
      simp only [startsWithL, Bool.and_eq_true] at hp ⊢
      exact ⟨hp.1, ih bs hp.2⟩

/-- A substring of a list is a substring of any right-extension of it. -/
theorem containsL_extend (n h t : List Char) (hp : containsL n h = true) :
    containsL n (h ++ t) = true := by
  induction h with
  | nil =>
    simp only [containsL, List.isEmpty_iff] at hp
    subst hp
    cases t with
    | nil => rfl
    | cons c cs => simp [containsL, startsWithL]
  | cons c cs ih =>
    simp only [containsL, List.cons_append, Bool.or_eq_true] at hp ⊢
    rcases hp with hp | hp
    · exact Or.inl (startsWithL_extend n (c :: cs) t hp)
    · exact Or.inr (ih hp)

/-- A substring of a list is a substring of any left-extension of it. -/
theorem containsL_shift (n pre rest : List Char) (hp : containsL n rest = true) :
    containsL n (pre ++ rest) = true := by
  induction pre with
  | nil => exact hp
  | cons c cs ih =>
    simp only [containsL, List.cons_append, Bool.or_eq_true]
    exact Or.inr ih

/-- The matched needle itself occurs at the front. -/
theorem containsL_self (n t : List Char) : containsL n (n ++ t) = true := by
  cases n with
  | nil =>
    cases t with
    | nil => rfl
    | cons c cs => simp [containsL, startsWithL]
  | cons a as =>
    simp only [containsL, List.cons_append, Bool.or_eq_true]
    refine Or.inl (startsWithL_extend (a :: as) (a :: as) t ?_)
    induction as with
    | nil => simp [startsWithL]
    | cons b bs ih => simp_all [startsWithL]

/-- Any middle piece of a three-part concatenation is contained in it. -/
theorem strContains_middle (a b c : String) :
    strContains (a ++ b ++ c) b = true := by
  unfold strContains
  rw [String.data_append, String.data_append, List.append_assoc]
  exact containsL_shift b.data a.data (b.data ++ c.data) (containsL_self b.data c.data)

/-- A needle contained in the first part is contained in the whole. -/
theorem strContains_left (a b c : String) (n : String)
    (h : strContains a n = true) :
    strContains (a ++ b ++ c) n = true := by
  unfold strContains at h ⊢
  rw [String.data_append, String.data_append, List.append_assoc]
  exact containsL_extend n.data a.data (b.data ++ c.data) h

/-! ## Claims C3-C6 -/

/-- Does the parsed value have field `k` with a truthy value?  Only a dict
can: any non-dict value has no fields at all. -/
def hasTruthyField (v : PyJson) (k : String) : Bool :=
  match v with
  | .obj kvs => pyTruthy (dictGet kvs k)
  | _ => false

/-- C3 counterexample: the body `null` parses as JSON and lacks a truthy
`success` field, yet the program does not print the raw body to the error
stream: `data.get("receipt")` raises `AttributeError` on the non-dict
value, so the process dies with a traceback (which nowhere contains the
body text `null`) instead of the controlled `Unexpected response` message. -/
theorem C3_counterexample :
    json_loads "null" = some .null
      ∧ hasTruthyField .null "success" = false
      ∧ responsePhase (urlopenResult 200 "null") =
          .crash "AttributeError: \x27NoneType\x27 object has no attribute \x27get\x27"
      ∧ strContains "AttributeError: \x27NoneType\x27 object has no attribute \x27get\x27" "null" = false :=
  ⟨rfl, rfl, rfl, rfl⟩

/-- C3 (amended to response bodies that parse as JSON *objects*): if the
parsed object lacks a truthy `success` field or a truthy (non-empty)
`receipt` field, the program prints the raw response body to the error
stream and exits with status 1. -/
theorem C3_invalid_object_rejected (body : String) (kvs : List (String × PyJson))
    (h : json_loads body = some (.obj kvs))
    (hcond : pyTruthy (dictGet kvs "success") = false ∨ pyTruthy (dictGet kvs "receipt") = false) :
    responsePhase (urlopenResult 200 body) =
        .exit 1 "" ("Unexpected response: " ++ body ++ "\n")
      ∧ strContains ("Unexpected response: " ++ body ++ "\n") body = true := by
  constructor
  · rcases hcond with hc | hc <;>
      simp [urlopenResult, responsePhase, h, validateData, hc]
  · exact strContains_middle "Unexpected response: " body "\n"

/-- C3 witness: a body of `\x7b"success": false\x7d` exits with status 1,
printing the raw body on the error stream. -/
theorem C3_invalid_object_rejected_witness :
    json_loads "\x7b\"success\": false\x7d" = some (.obj [("success", .bool false)])
      ∧ responsePhase (urlopenResult 200 "\x7b\"success\": false\x7d") =
          .exit 1 "" "Unexpected response: \x7b\"success\": false\x7d\n" :=
  ⟨rfl,
   (C3_invalid_object_rejected "\x7b\"success\": false\x7d" [("success", .bool false)]
      rfl (Or.inl rfl)).1⟩

/-- C4: if `B12_EMAIL` is unset, or blank after stripping whitespace, the
program exits with status 2 and the error-stream message names
`B12_EMAIL` (whatever the response would have been). -/
theorem C4_missing_email (env : Env) (r : RequestResult)
    (h : List.lookup "B12_EMAIL" env = none ∨ pyStrip (getenvD env "B12_EMAIL" "") = "") :
    runMain env r = .exit 2 "" "Missing required environment variable: B12_EMAIL\n"
      ∧ strContains "Missing required environment variable: B12_EMAIL\n" "B12_EMAIL" = true := by
  refine ⟨?_, rfl⟩
  have hstrip : pyStrip (getenvD env "B12_EMAIL" "") = "" := by
    rcases h with h | h
    · simp [getenvD, h]
      rfl
    · exact h
  unfold runMain resolveConfig required_env
  simp only [hstrip]
  rfl

/-- C4 witness: the empty environment. -/
theorem C4_missing_email_witness :
    runMain [] (.failure "connection refused") =
        .exit 2 "" "Missing required environment variable: B12_EMAIL\n"
      ∧ strContains "Missing required environment variable: B12_EMAIL\n" "B12_EMAIL" = true :=
  C4_missing_email [] (.failure "connection refused") (Or.inl rfl)

/-- C5: with the configuration resolved, an HTTP 200 response whose body is
`\x7b"success": true, "receipt": "abc123"\x7d` makes the program print
exactly `abc123` (newline-terminated) on standard output, nothing on the
error stream, and exit with status 0. -/
theorem C5_success_prints_receipt (env : Env) (cfg : Config)
    (h : resolveConfig env = .ok cfg) :
    runMain env (urlopenResult 200 "\x7b\"success\": true, \"receipt\": \"abc123\"\x7d") =
      .exit 0 "abc123\n" "" := by
  unfold runMain
  rw [h]
  rfl

/-- C5 witness: a fully-populated environment. -/
theorem C5_success_prints_receipt_witness :
    runMain [("B12_EMAIL", "a@b.c"), ("GITHUB_REPOSITORY", "o/r"), ("GITHUB_RUN_ID", "1")]
        (urlopenResult 200 "\x7b\"success\": true, \"receipt\": \"abc123\"\x7d") =
      .exit 0 "abc123\n" "" :=
  C5_success_prints_receipt
    [("B12_EMAIL", "a@b.c"), ("GITHUB_REPOSITORY", "o/r"), ("GITHUB_RUN_ID", "1")]
    ⟨"Luciano Almenares", "a@b.c", "https://www.linkedin.com/in/luciano-almenares/",
     "https://github.com/o/r", "https://github.com/o/r/actions/runs/1"⟩ rfl

/-- C6: an HTTP 500 response raises `HTTPError`; the program exits with
status 1 and the error-stream message carries both the status code and the
response body. -/
theorem C6_http_500 (env : Env) (cfg : Config) (body : String)
    (h : resolveConfig env = .ok cfg) :
    runMain env (urlopenResult 500 body) = .exit 1 "" ("HTTPError 500: " ++ body ++ "\n")
      ∧ strContains ("HTTPError 500: " ++ body ++ "\n") "500" = true
      ∧ strContains ("HTTPError 500: " ++ body ++ "\n") body = true := by
  refine ⟨?_, ?_, strContains_middle "HTTPError 500: " body "\n"⟩
  · unfold runMain
    rw [h]
    rfl
  · exact strContains_left "HTTPError 500: " body "\n" "500" rfl

/-- C6 witness. -/
theorem C6_http_500_witness :
    runMain [("B12_EMAIL", "a@b.c"), ("GITHUB_REPOSITORY", "o/r"), ("GITHUB_RUN_ID", "1")]
        (urlopenResult 500 "server exploded") =
      .exit 1 "" "HTTPError 500: server exploded\n" :=
  (C6_http_500
    [("B12_EMAIL", "a@b.c"), ("GITHUB_REPOSITORY", "o/r"), ("GITHUB_RUN_ID", "1")]
    ⟨"Luciano Almenares", "a@b.c", "https://www.linkedin.com/in/luciano-almenares/",
     "https://github.com/o/r", "https://github.com/o/r/actions/runs/1"⟩
    "server exploded" rfl).1

/-! ## Claims C7, C9, C10 -/

/-- C7: `repository_link` resolution priority.  (1) A non-blank
`B12_REPOSITORY_LINK` wins.  (2) Otherwise, with a non-blank
`GITHUB_REPOSITORY` slug the link is derived from the server URL and the
slug.  (3) Otherwise a non-blank `REPOSITORY_LINK` is used.  (4) If all
three are blank/absent the resolution fails fatally with exit status 2,
and (5) the whole program then exits with status 2 whenever `B12_EMAIL`
itself is present. -/
theorem C7_repository_link_priority (env : Env) (r : RequestResult) :
    (pyStrip (getenvD env "B12_REPOSITORY_LINK" "") ≠ "" →
      resolveRepositoryLink env = .ok (pyStrip (getenvD env "B12_REPOSITORY_LINK" "")))
    ∧ (pyStrip (getenvD env "B12_REPOSITORY_LINK" "") = "" →
       pyStrip (getenvD env "GITHUB_REPOSITORY" "") ≠ "" →
      resolveRepositoryLink env =
        .ok (pyRstripSlash (getenvD env "GITHUB_SERVER_URL" "https://github.com") ++ "/" ++
             pyStrip (getenvD env "GITHUB_REPOSITORY" "")))
    ∧ (pyStrip (getenvD env "B12_REPOSITORY_LINK" "") = "" →
       pyStrip (getenvD env "GITHUB_REPOSITORY" "") = "" →
       pyStrip (getenvD env "REPOSITORY_LINK" "") ≠ "" →
      resolveRepositoryLink env = .ok (pyStrip (getenvD env "REPOSITORY_LINK" "")))
    ∧ (pyStrip (getenvD env "B12_REPOSITORY_LINK" "") = "" →
       pyStrip (getenvD env "GITHUB_REPOSITORY" "") = "" →
       pyStrip (getenvD env "REPOSITORY_LINK" "") = "" →
      resolveRepositoryLink env =
        .error (2, "Missing required environment variable: REPOSITORY_LINK\n"))
    ∧ (pyStrip (getenvD env "B12_EMAIL" "") ≠ "" →
       pyStrip (getenvD env "B12_REPOSITORY_LINK" "") = "" →
       pyStrip (getenvD env "GITHUB_REPOSITORY" "") = "" →
       pyStrip (getenvD env "REPOSITORY_LINK" "") = "" →
      runMain env r = .exit 2 "" "Missing required environment variable: REPOSITORY_LINK\n") := by
  refine ⟨?_, ?_, ?_, ?_, ?_⟩
  · intro h1
    simp [resolveRepositoryLink, h1]
  · intro h1 h2
    simp [resolveRepositoryLink, github_repo_link, h1, h2]
  · intro h1 h2 h3
    simp [resolveRepositoryLink, github_repo_link, required_env, h1, h2, h3]
  · intro h1 h2 h3
    simp [resolveRepositoryLink, github_repo_link, required_env, h1, h2, h3]
  · intro h0 h1 h2 h3
    unfold runMain resolveConfig required_env resolveRepositoryLink github_repo_link required_env
    simp [h0, h1, h2, h3]
    rfl

/-- C7 witness: one environment for each of the four resolution cases. -/
theorem C7_repository_link_priority_witness :
    resolveRepositoryLink [("B12_REPOSITORY_LINK", " https://x/y ")] = .ok "https://x/y"
      ∧ resolveRepositoryLink [("GITHUB_REPOSITORY", "o/r")] = .ok "https://github.com/o/r"
      ∧ resolveRepositoryLink [("REPOSITORY_LINK", "https://somewhere")] = .ok "https://somewhere"
      ∧ runMain [("B12_EMAIL", "a@b.c")] (.failure "unreachable") =
          .exit 2 "" "Missing required environment variable: REPOSITORY_LINK\n" :=
  ⟨(C7_repository_link_priority [("B12_REPOSITORY_LINK", " https://x/y ")] (.failure "u")).1
      (by decide),
   (C7_repository_link_priority [("GITHUB_REPOSITORY", "o/r")] (.failure "u")).2.1
      (by decide) (by decide),
   (C7_repository_link_priority [("REPOSITORY_LINK", "https://somewhere")] (.failure "u")).2.2.1
      (by decide) (by decide) (by decide),
   (C7_repository_link_priority [("B12_EMAIL", "a@b.c")] (.failure "unreachable")).2.2.2.2
      (by decide) (by decide) (by decide) (by decide)⟩

/-- C9: a 2xx status other than 200 (e.g. 201 or 204) is returned by
`urlopen` without an exception, fails the `status != 200` check, and the
program prints an `HTTP <status>` diagnostic to the error stream and exits
with status 1 - regardless of the body, even a valid success/receipt
object. -/
theorem C9_2xx_not_200 (status : Nat) (body : String)
    (h1 : 200 ≤ status) (h2 : status ≤ 299) (h3 : status ≠ 200) :
    responsePhase (urlopenResult status body) =
      .exit 1 "" ("HTTP " ++ toString status ++ ": " ++ body ++ "\n") := by
  unfold urlopenResult
  rw [if_neg (by omega)]
  simp [responsePhase, h3]

/-- C9 witness: HTTP 201 with a perfectly valid success body still exits 1. -/
theorem C9_2xx_not_200_witness :
    responsePhase (urlopenResult 201 "\x7b\"success\": true, \"receipt\": \"abc123\"\x7d") =
      .exit 1 ""
        ("HTTP " ++ toString (201 : Nat) ++ ": " ++ "\x7b\"success\": true, \"receipt\": \"abc123\"\x7d" ++ "\n") :=
  C9_2xx_not_200 201 "\x7b\"success\": true, \"receipt\": \"abc123\"\x7d"
    (by decide) (by decide) (by decide)

/-- C10: validation is by truthiness, not by the documented types: any HTTP
200 body parsing to an object whose `success` and `receipt` values are both
truthy (whatever their types) makes the program print `str()` of the
receipt value to standard output and exit with status 0. -/
theorem C10_truthiness_only (body : String) (kvs : List (String × PyJson))
    (h : json_loads body = some (.obj kvs))
    (hs : pyTruthy (dictGet kvs "success") = true)
    (hr : pyTruthy (dictGet kvs "receipt") = true) :
    responsePhase (urlopenResult 200 body) =
      .exit 0 (pyStr (dictGet kvs "receipt") ++ "\n") "" := by
  simp [urlopenResult, responsePhase, h, validateData, hs, hr]

/-- C10 witness: `success` is the number 1 and `receipt` the number 7; the
program prints `7` and exits 0. -/
theorem C10_truthiness_only_witness :
    json_loads "\x7b\"success\":1,\"receipt\":7\x7d" =
        some (.obj [("success", .num 1 0 false), ("receipt", .num 7 0 false)])
      ∧ responsePhase (urlopenResult 200 "\x7b\"success\":1,\"receipt\":7\x7d") =
          .exit 0 "7\n" "" :=
  ⟨rfl,
   C10_truthiness_only "\x7b\"success\":1,\"receipt\":7\x7d"
     [("success", .num 1 0 false), ("receipt", .num 7 0 false)] rfl rfl rfl⟩

/-! ## Timestamp (`iso8601_utc_now_ms`, lines 15-16 of `apply.py`)

`datetime.now(timezone.utc)` is modelled as an arbitrary field record within
`datetime`s documented ranges; `isoformat(timespec="milliseconds")` renders
`YYYY-MM-DDTHH:MM:SS.mmm+00:00` with the microseconds truncated (integer
division) to milliseconds; `.replace("+00:00", "Z")` replaces every
occurrence of `+00:00`. -/

/-- The fields of an aware `datetime` in UTC. -/
structure PyDatetime : Type where
  year : Nat
  month : Nat
  day : Nat
  hour : Nat
  minute : Nat
  second : Nat
  microsecond : Nat

/-- The field ranges `datetime` guarantees (`MINYEAR = 1`,
`MAXYEAR = 9999`; no leap seconds). -/
abbrev validDatetime (t : PyDatetime) : Prop :=
  1 ≤ t.year ∧ t.year ≤ 9999 ∧ 1 ≤ t.month ∧ t.month ≤ 12 ∧ 1 ≤ t.day ∧ t.day ≤ 31 ∧
  t.hour ≤ 23 ∧ t.minute ≤ 59 ∧ t.second ≤ 59 ∧ t.microsecond ≤ 999999

/-- Zero-padded decimal rendering, Python `"%0*d"`: at least `w` characters. -/
def padDigits (w n : Nat) : List Char :=
  List.replicate (w - (natDigits n).length) (Char.ofNat 48) ++ natDigits n

/-- The date-time part of `isoformat(timespec="milliseconds")`, without the
UTC offset: `YYYY-MM-DDTHH:MM:SS.mmm` with milliseconds truncated from the
microseconds. -/
def isoBodyMs (t : PyDatetime) : List Char :=
  padDigits 4 t.year ++ '-' :: (padDigits 2 t.month ++ '-' :: (padDigits 2 t.day ++
  'T' :: (padDigits 2 t.hour ++ ':' :: (padDigits 2 t.minute ++ ':' :: (padDigits 2 t.second ++
  '.' :: padDigits 3 (t.microsecond / 1000))))))

/-- `datetime.isoformat(timespec="milliseconds")` for a UTC-aware value:
the date-time part followed by the `+00:00` offset. -/
def isoformat_milliseconds (t : PyDatetime) : String :=
  ⟨isoBodyMs t ++ ['+', '0', '0', ':', '0', '0']⟩

/-- Python `str.replace(pat, rep)` (all occurrences, left to right), with a
structural fuel bound so that the function computes by reduction
(`s.length` suffices: each step consumes at least one character). -/
def pyReplaceF (pat rep : List Char) : Nat → List Char → List Char
  | 0, s => s
  | _ + 1, [] => []
  | fuel + 1, c :: cs =>
    match pat with
    | [] => c :: cs
    | p :: ps =>
      if startsWithL (p :: ps) (c :: cs)
      then rep ++ pyReplaceF (p :: ps) rep fuel (cs.drop ps.length)
      else c :: pyReplaceF (p :: ps) rep fuel cs

/-- Python `s.replace(pat, rep)` for a non-empty pattern. -/
def pyReplace (pat rep s : List Char) : List Char :=
  pyReplaceF pat rep s.length s

/-- `iso8601_utc_now_ms()` (lines 15-16): the ISO timestamp with the
`+00:00` offset replaced by `Z`. -/
def iso8601_utc_now_ms (t : PyDatetime) : String :=
  ⟨pyReplace ['+', '0', '0', ':', '0', '0'] ['Z'] (isoformat_milliseconds t).data⟩

/-- Consume exactly `n` decimal digits. -/
def expectDigits : Nat → List Char → Option (List Char)
  | 0, cs => some cs
  | _ + 1, [] => none
  | n + 1, c :: cs => if c.isDigit then expectDigits n cs else none

/-- Consume exactly the character `x`. -/
def expectCh (x : Char) : List Char → Option (List Char)
  | [] => none
  | c :: cs => if c = x then some cs else none

/-- Does the string match `YYYY-MM-DDTHH:MM:SS.mmmZ` exactly (four digits,
dash, two digits, dash, two digits, `T`, two digits, colon, two digits,
colon, two digits, dot, three digits, `Z`, end of string)? -/
def matchesTimestampPattern (s : String) : Bool :=
  (Option.bind (expectDigits 4 s.data) (fun r =>
   Option.bind (expectCh '-' r) (fun r =>
   Option.bind (expectDigits 2 r) (fun r =>
   Option.bind (expectCh '-' r) (fun r =>
   Option.bind (expectDigits 2 r) (fun r =>
   Option.bind (expectCh 'T' r) (fun r =>
   Option.bind (expectDigits 2 r) (fun r =>
   Option.bind (expectCh ':' r) (fun r =>
   Option.bind (expectDigits 2 r) (fun r =>
   Option.bind (expectCh ':' r) (fun r =>
   Option.bind (expectDigits 2 r) (fun r =>
   Option.bind (expectCh '.' r) (fun r =>
   Option.bind (expectDigits 3 r) (fun r =>
   Option.bind (expectCh 'Z' r) (fun r =>
   if r.isEmpty then some () else none))))))))))))))).isSome

example : matchesTimestampPattern "2026-10-12T03:04:05.123Z" = true := rfl

example : matchesTimestampPattern "2026-10-12T03:04:05.123+00:00" = false := rfl

example : iso8601_utc_now_ms ⟨2026, 10, 12, 3, 4, 5, 123456⟩ = "2026-10-12T03:04:05.123Z" := rfl

/-- The characters produced for single digits are decimal digit characters. -/
theorem digitChar_isDigit : ∀ n < 10, (Char.ofNat (48 + n)).isDigit = true := by
  decide

/-- Every character produced by `natDigitsAux` (with adequate fuel) is a
decimal digit. -/
theorem natDigitsAux_digits : ∀ fuel n, n < fuel →
    ∀ c ∈ natDigitsAux fuel n, c.isDigit = true := by
  intro fuel
  induction fuel with
  | zero => omega
  | succ f ih =>
    intro n hn c hc
    unfold natDigitsAux at hc
    by_cases h10 : n < 10
    · rw [if_pos h10] at hc
      simp only [List.mem_singleton] at hc
      subst hc
      exact digitChar_isDigit n h10
    · rw [if_neg h10] at hc
      rcases List.mem_append.mp hc with hm | hm
      · have hd : n / 10 < n := Nat.div_lt_self (by omega) (by omega)
        exact ih (n / 10) (by omega) c hm
      · simp only [List.mem_singleton] at hm
        subst hm
        exact digitChar_isDigit (n % 10) (Nat.mod_lt _ (by omega))

/-- Every character of `natDigits` is a decimal digit. -/
theorem natDigits_digits (n : Nat) : ∀ c ∈ natDigits n, c.isDigit = true :=
  natDigitsAux_digits (n + 1) n (Nat.lt_succ_self n)

/-- With adequate fuel, at most `w` digit characters are produced for a
number below `10 ^ w`. -/
theorem natDigitsAux_len_le : ∀ fuel n w, n < fuel → n < 10 ^ w → 0 < w →
    (natDigitsAux fuel n).length ≤ w := by
  intro fuel
  induction fuel with
  | zero => omega
  | succ f ih =>
    intro n w hn hw hw0
    unfold natDigitsAux
    by_cases h10 : n < 10
    · rw [if_pos h10]
      exact hw0
    · rw [if_neg h10]
      rcases w with _ | _ | w
      · omega
      · norm_num at hw
        omega
      · have hdiv : n / 10 < 10 ^ (w + 1) := by
          rw [Nat.div_lt_iff_lt_mul (by omega)]
          calc n < 10 ^ (w + 2) := hw
          _ = 10 ^ (w + 1) * 10 := by ring
        have hlt : n / 10 < n := Nat.div_lt_self (by omega) (by omega)
        have := ih (n / 10) (w + 1) (by omega) hdiv (by omega)
        simp only [List.length_append, List.length_cons, List.length_nil]
        omega

/-- `padDigits w n` has exactly `w` characters when `n < 10 ^ w`. -/
theorem padDigits_length (w n : Nat) (hn : n < 10 ^ w) (hw : 0 < w) :
    (padDigits w n).length = w := by
  have hle : (natDigits n).length ≤ w := natDigitsAux_len_le (n + 1) n w (Nat.lt_succ_self n) hn hw
  simp only [padDigits, List.length_append, List.length_replicate]
  omega

/-- Every character of `padDigits` is a decimal digit. -/
theorem padDigits_digits (w n : Nat) : ∀ c ∈ padDigits w n, c.isDigit = true := by
  intro c hc
  rcases List.mem_append.mp hc with hm | hm
  · rw [List.eq_of_mem_replicate hm]
    decide
  · exact natDigits_digits n c hm

/-- `expectDigits` consumes a run of digit characters of the right length. -/
theorem expectDigits_of (n : Nat) (ds rest : List Char)
    (hlen : ds.length = n) (hd : ∀ c ∈ ds, c.isDigit = true) :
    expectDigits n (ds ++ rest) = some rest := by
  subst hlen
  induction ds with
  | nil => rfl
  | cons c cs ih =>
    simp only [List.length_cons, List.cons_append, expectDigits]
    rw [if_pos (hd c (List.mem_cons_self c cs))]
    exact ih (fun x hx => hd x (List.mem_cons_of_mem c hx))

/-- `expectCh` consumes the expected character. -/
theorem expectCh_cons (x : Char) (rest : List Char) :
    expectCh x (x :: rest) = some rest := by
  simp [expectCh]

/-- A list starts with itself. -/
theorem startsWithL_refl (l : List Char) : startsWithL l l = true := by
  induction l with
  | nil => rfl
  | cons a as ih => simp [startsWithL, ih]

/-- If a non-empty needle matches at the front, its head is the first
character. -/
theorem startsWithL_head (a b : Char) (as bs : List Char)
    (h : startsWithL (a :: as) (b :: bs) = true) : a = b := by
  simp only [startsWithL, Bool.and_eq_true, decide_eq_true_eq] at h
  exact h.1

/-- If a non-empty needle occurs somewhere in a list, its head character is
an element of the list. -/
theorem containsL_head_mem (p : Char) (ps hay : List Char)
    (h : containsL (p :: ps) hay = true) : p ∈ hay := by
  induction hay with
  | nil => simp [containsL, List.isEmpty] at h
  | cons c cs ih =>
    simp only [containsL, Bool.or_eq_true] at h
    rcases h with h | h
    · rw [startsWithL_head p c ps cs h]
      exact List.mem_cons_self c cs
    · exact List.mem_cons_of_mem c (ih h)

/-- `pyReplaceF` on the empty list. -/
theorem pyReplaceF_nil (pat rep : List Char) (fuel : Nat) :
    pyReplaceF pat rep fuel [] = [] := by
  cases fuel <;> rfl

/-- Scanning past a prefix that nowhere contains the pattern head copies it
unchanged. -/
theorem pyReplaceF_skip (p : Char) (ps rep : List Char) :
    ∀ pre fuel rest, (pre ++ rest).length ≤ fuel → (∀ c ∈ pre, ¬ c = p) →
    pyReplaceF (p :: ps) rep fuel (pre ++ rest) =
      pre ++ pyReplaceF (p :: ps) rep (fuel - pre.length) rest := by
  intro pre
  induction pre with
  | nil =>
    intro fuel rest _ _
    simp
  | cons c cs ih =>
    intro fuel rest hlen hne
    cases fuel with
    | zero =>
      simp only [List.cons_append, List.length_append, List.length_cons] at hlen
      omega
    | succ f =>
      have hcp : ¬ c = p := hne c (List.mem_cons_self c cs)
      have hsw : ¬ (startsWithL (p :: ps) (c :: (cs ++ rest)) = true) := fun hs =>
        hcp (startsWithL_head p c ps (cs ++ rest) hs).symm
      have hlen2 : (cs ++ rest).length ≤ f := by
        simp only [List.cons_append, List.length_cons] at hlen
        omega
      have harith : f + 1 - (c :: cs).length = f - cs.length := by
        simp only [List.length_cons]
        omega
      show pyReplaceF (p :: ps) rep (f + 1) (c :: (cs ++ rest)) =
        (c :: cs) ++ pyReplaceF (p :: ps) rep (f + 1 - (c :: cs).length) rest
      rw [harith, List.cons_append]
      simp only [pyReplaceF]
      rw [if_neg hsw, ih f rest hlen2 (fun x hx => hne x (List.mem_cons_of_mem c hx))]

/-- Replacing the pattern when the remaining input is exactly the pattern. -/
theorem pyReplaceF_self (p : Char) (ps rep : List Char) (fuel : Nat) (hf : 0 < fuel) :
    pyReplaceF (p :: ps) rep fuel (p :: ps) = rep := by
  cases fuel with
  | zero => omega
  | succ f =>
    simp only [pyReplaceF]
    rw [if_pos (startsWithL_refl (p :: ps)), List.drop_length, pyReplaceF_nil]
    simp

/-- A digit character is not `+`. -/
theorem isDigit_ne_plus (c : Char) (h : c.isDigit = true) : ¬ c = '+' := by
  intro e
  rw [e] at h
  exact absurd h (by decide)

/-- No character of the date-time body is `+`. -/
theorem isoBodyMs_no_plus (t : PyDatetime) : ∀ c ∈ isoBodyMs t, ¬ c = '+' := by
  intro c hc
  simp only [isoBodyMs, List.mem_append, List.mem_cons] at hc
  rcases hc with hc|hc|hc|hc|hc|hc|hc|hc|hc|hc|hc|hc|hc <;>
    first
    | (subst hc; decide)
    | exact isDigit_ne_plus c (padDigits_digits _ _ c hc)

/-- Assembling the pattern: any string of the shape
`<4 digits>-<2 digits>-<2 digits>T<2 digits>:<2 digits>:<2 digits>.<3 digits>Z`
matches the timestamp pattern. -/
theorem matchesTimestampPattern_build (y mo d hh mi ss ms : List Char)
    (hy : y.length = 4) (hyd : ∀ c ∈ y, c.isDigit = true)
    (hmo : mo.length = 2) (hmod : ∀ c ∈ mo, c.isDigit = true)
    (hd : d.length = 2) (hdd : ∀ c ∈ d, c.isDigit = true)
    (hh2 : hh.length = 2) (hhd : ∀ c ∈ hh, c.isDigit = true)
    (hmi : mi.length = 2) (hmid : ∀ c ∈ mi, c.isDigit = true)
    (hss : ss.length = 2) (hssd : ∀ c ∈ ss, c.isDigit = true)
    (hms : ms.length = 3) (hmsd : ∀ c ∈ ms, c.isDigit = true) :
    matchesTimestampPattern
      ⟨y ++ '-' :: (mo ++ '-' :: (d ++ 'T' :: (hh ++ ':' :: (mi ++ ':' ::
        (ss ++ '.' :: (ms ++ ['Z']))))))⟩ = true := by
  unfold matchesTimestampPattern
  rw [show (String.mk (y ++ '-' :: (mo ++ '-' :: (d ++ 'T' :: (hh ++ ':' :: (mi ++ ':' ::
        (ss ++ '.' :: (ms ++ ['Z'])))))))).data
      = y ++ '-' :: (mo ++ '-' :: (d ++ 'T' :: (hh ++ ':' :: (mi ++ ':' ::
        (ss ++ '.' :: (ms ++ ['Z'])))))) from rfl]
  rw [expectDigits_of 4 y _ hy hyd, Option.some_bind, expectCh_cons, Option.some_bind]
  rw [expectDigits_of 2 mo _ hmo hmod, Option.some_bind, expectCh_cons, Option.some_bind]
  rw [expectDigits_of 2 d _ hd hdd, Option.some_bind, expectCh_cons, Option.some_bind]
  rw [expectDigits_of 2 hh _ hh2 hhd, Option.some_bind, expectCh_cons, Option.some_bind]
  rw [expectDigits_of 2 mi _ hmi hmid, Option.some_bind, expectCh_cons, Option.some_bind]
  rw [expectDigits_of 2 ss _ hss hssd, Option.some_bind, expectCh_cons, Option.some_bind]
  rw [expectDigits_of 3 ms _ hms hmsd, Option.some_bind, expectCh_cons, Option.some_bind]
  rfl

/-- C8: for every valid UTC datetime, the timestamp string is the date-time
body (with milliseconds obtained by truncating the microseconds) followed by
a literal `Z`; it matches the pattern `YYYY-MM-DDTHH:MM:SS.mmmZ`; it never
contains `+00:00`; and the pre-replacement `isoformat` text is the same
body followed by `+00:00`. -/
theorem C8_timestamp_format (t : PyDatetime) (h : validDatetime t) :
    iso8601_utc_now_ms t = ⟨isoBodyMs t ++ ['Z']⟩
      ∧ matchesTimestampPattern (iso8601_utc_now_ms t) = true
      ∧ strContains (iso8601_utc_now_ms t) "+00:00" = false
      ∧ (isoformat_milliseconds t).data = isoBodyMs t ++ ['+', '0', '0', ':', '0', '0'] := by
  obtain ⟨hy1, hy2, hm1, hm2, hd1, hd2, hh1, hmi1, hs1, hus1⟩ := h
  have hdata : (iso8601_utc_now_ms t).data = isoBodyMs t ++ ['Z'] := by
    show pyReplace ['+', '0', '0', ':', '0', '0'] ['Z'] (isoformat_milliseconds t).data = _
    unfold pyReplace
    have hs : (isoformat_milliseconds t).data =
        isoBodyMs t ++ ['+', '0', '0', ':', '0', '0'] := rfl
    rw [hs]
    rw [pyReplaceF_skip '+' ['0', '0', ':', '0', '0'] ['Z'] (isoBodyMs t)
          (isoBodyMs t ++ ['+', '0', '0', ':', '0', '0']).length
          ['+', '0', '0', ':', '0', '0'] (le_refl _) (isoBodyMs_no_plus t)]
    have hf : (isoBodyMs t ++ ['+', '0', '0', ':', '0', '0']).length - (isoBodyMs t).length = 6 := by
      simp [List.length_append]
    rw [hf, pyReplaceF_self '+' ['0', '0', ':', '0', '0'] ['Z'] 6 (by omega)]
  have hstr : iso8601_utc_now_ms t = ⟨isoBodyMs t ++ ['Z']⟩ := String.ext hdata
  refine ⟨hstr, ?_, ?_, rfl⟩
  · rw [hstr]
    have hshape : isoBodyMs t ++ ['Z'] =
        padDigits 4 t.year ++ '-' :: (padDigits 2 t.month ++ '-' :: (padDigits 2 t.day ++
        'T' :: (padDigits 2 t.hour ++ ':' :: (padDigits 2 t.minute ++ ':' ::
        (padDigits 2 t.second ++ '.' :: (padDigits 3 (t.microsecond / 1000) ++ ['Z'])))))) := by
      simp [isoBodyMs, List.append_assoc]
    rw [hshape]
    exact matchesTimestampPattern_build _ _ _ _ _ _ _
      (padDigits_length 4 t.year (by norm_num; omega) (by norm_num)) (padDigits_digits 4 t.year)
      (padDigits_length 2 t.month (by norm_num; omega) (by norm_num)) (padDigits_digits 2 t.month)
      (padDigits_length 2 t.day (by norm_num; omega) (by norm_num)) (padDigits_digits 2 t.day)
      (padDigits_length 2 t.hour (by norm_num; omega) (by norm_num)) (padDigits_digits 2 t.hour)
      (padDigits_length 2 t.minute (by norm_num; omega) (by norm_num)) (padDigits_digits 2 t.minute)
      (padDigits_length 2 t.second (by norm_num; omega) (by norm_num)) (padDigits_digits 2 t.second)
      (padDigits_length 3 (t.microsecond / 1000) (by norm_num; omega) (by norm_num))
      (padDigits_digits 3 (t.microsecond / 1000))
  · rw [hstr]
    have hfalse : containsL ['+', '0', '0', ':', '0', '0'] (isoBodyMs t ++ ['Z']) = false := by
      cases hb : containsL ['+', '0', '0', ':', '0', '0'] (isoBodyMs t ++ ['Z']) with
      | false => rfl
      | true =>
        exfalso
        have hmem := containsL_head_mem '+' _ _ hb
        rcases List.mem_append.mp hmem with hm | hm
        · exact isoBodyMs_no_plus t '+' hm rfl
        · simp at hm
    exact hfalse

/-- C8 witness: a concrete valid datetime. -/
theorem C8_timestamp_format_witness :
    validDatetime ⟨2026, 10, 12, 3, 4, 5, 123456⟩
      ∧ matchesTimestampPattern (iso8601_utc_now_ms ⟨2026, 10, 12, 3, 4, 5, 123456⟩) = true :=
  ⟨by decide, (C8_timestamp_format ⟨2026, 10, 12, 3, 4, 5, 123456⟩ (by decide)).2.1⟩
